import Mathlib

/-!
Verification development for the beauty-salons search service.

The Go sources are shallowly embedded as Lean definitions:
  * `float64` values that only participate in comparisons and arithmetic
    on rationals are modelled as `ℚ`; the haversine distance, which uses
    transcendental functions, is modelled over `ℝ` (casting the `ℚ`
    coordinates).
  * nullable pointers become `Option`, Go zero values are spelled out,
    and fallible operations return `Option`.
  * Go strings are Lean `String`s.  Because several core `String`
    operations do not reduce in the kernel, byte-level helpers
    (`strLower`, `strLe`, `isBlank`, `strBytes`) mirror the Go
    operations (`strings.ToLower` / SQL `LOWER`, `<=` on strings,
    `strings.TrimSpace(s) == ""`, `len(s)`) on the character data.
  * the SQL `WHERE` clause of `PostgresRepository.SearchSalons` and the
    Elasticsearch bool query of `ElasticsearchClient.buildQuery` are
    embedded as clause lists (in the construction order of the Go code)
    together with a semantic interpretation of each clause.  Full-text
    matching (`to_tsvector`/`multi_match`) is kept abstract as an oracle
    parameter, since its linguistic behaviour lives in the backends.
-/

namespace BeautySalons

/-! ### String helpers (kernel-reducible counterparts of Go string ops) -/

/-- Character-wise lowercase; models Go `strings.ToLower` and SQL `LOWER`
(for the ASCII city names the service handles they agree). -/
def strLower (s : String) : String := ⟨s.data.map Char.toLower⟩

/-- Lexicographic comparison on character lists. -/
def charListLe : List Char → List Char → Bool
  | [], _ => true
  | _ :: _, [] => false
  | c :: cs, d :: ds => if c < d then true else if d < c then false else charListLe cs ds

/-- Models Go `a <= b` on strings (byte-wise lexicographic order; on the
ASCII time strings used by operating hours the orders agree). -/
def strLe (a b : String) : Bool := charListLe a.data b.data

/-- Models Go `strings.TrimSpace(s) == ""`: true iff every character is
whitespace. -/
def isBlank (s : String) : Bool := s.data.all (·.isWhitespace)

/-- Models Go `len(s)` (UTF-8 byte length). -/
def strBytes (s : String) : Nat := s.data.foldl (fun n c => n + c.utf8Size) 0

/-! ### Geospatial primitive (internal/domain/salon.go) -/

/-- GeoPoint represents a geographic coordinate (salon.go).  The Go
`float64` fields are modelled as rationals. -/
structure GeoPoint where
  latitude : ℚ
  longitude : ℚ
deriving DecidableEq, Repr

/-- Real-valued two-argument arctangent, following Go `math.Atan2` on
finite inputs. -/
noncomputable def atan2 (y x : ℝ) : ℝ :=
  if 0 < x then Real.arctan (y / x)
  else if x < 0 then
    if 0 ≤ y then Real.arctan (y / x) + Real.pi
    else Real.arctan (y / x) - Real.pi
  else
    if 0 < y then Real.pi / 2
    else if y < 0 then -(Real.pi / 2)
    else 0

/-- GeoPoint.DistanceTo (salon.go): haversine distance in kilometers,
Earth radius 6371 km. -/
noncomputable def GeoPoint.DistanceTo (g other : GeoPoint) : ℝ :=
  let lat1Rad : ℝ := (g.latitude : ℝ) * Real.pi / 180
  let lat2Rad : ℝ := (other.latitude : ℝ) * Real.pi / 180
  let deltaLat : ℝ := ((other.latitude : ℝ) - (g.latitude : ℝ)) * Real.pi / 180
  let deltaLon : ℝ := ((other.longitude : ℝ) - (g.longitude : ℝ)) * Real.pi / 180
  let a := Real.sin (deltaLat / 2) * Real.sin (deltaLat / 2) +
    Real.cos lat1Rad * Real.cos lat2Rad * Real.sin (deltaLon / 2) * Real.sin (deltaLon / 2)
  let c := 2 * atan2 (Real.sqrt a) (Real.sqrt (1 - a))
  6371 * c

/-- GeoPoint.IsValid (salon.go): coordinate range check. -/
def GeoPoint.IsValid (g : GeoPoint) : Bool :=
  -90 ≤ g.latitude && g.latitude ≤ 90 && -180 ≤ g.longitude && g.longitude ≤ 180

/-! ### Domain model (internal/domain/salon.go) -/

/-- Location (salon.go); Go zero values of the string fields are `""`. -/
structure Location where
  address : String
  city : String
  state : String
  postalCode : String
  country : String
  geoPoint : Option GeoPoint
deriving DecidableEq, Repr

/-- Contact (salon.go). -/
structure Contact where
  phone : String
  email : String
  website : String
deriving DecidableEq, Repr

/-- PriceRange (salon.go) is an ordinal int; 0 plays the role of
"unset". -/
abbrev PriceRange := Int

/-- PriceRange.IsValid (salon.go): between PriceBudget (1) and
PriceLuxury (4). -/
def PriceRange.IsValid (p : PriceRange) : Bool := 1 ≤ p && p ≤ 4

/-- Category (salon.go); the `CreatedAt` timestamp is irrelevant to every
claim and omitted. -/
structure Category where
  id : Int
  name : String
  slug : String
deriving DecidableEq, Repr

/-- Service (salon.go); `CreatedAt` omitted as irrelevant. -/
structure Service where
  id : Int
  salonID : Int
  name : String
  description : Option String
  priceMin : Option ℚ
  priceMax : Option ℚ
  durationMinutes : Option Int
deriving DecidableEq, Repr

/-- Amenity (salon.go). -/
structure Amenity where
  id : Int
  name : String
  icon : String
deriving DecidableEq, Repr

/-- OperatingHours (salon.go): day_of_week 0=Sunday..6=Saturday, times as
"HH:MM:SS" strings. -/
structure OperatingHours where
  id : Int
  salonID : Int
  dayOfWeek : Int
  openTime : String
  closeTime : String
  isClosed : Bool
deriving DecidableEq, Repr

/-- Salon (salon.go): the root aggregate.  The two timestamps are never
read by any embedded operation and are omitted. -/
structure Salon where
  id : Int
  name : String
  slug : String
  description : Option String
  location : Location
  contact : Contact
  categoryID : Option Int
  priceRange : PriceRange
  rating : Option ℚ
  reviewCount : Int
  isActive : Bool
  isVerified : Bool
  category : Option Category
  services : List Service
  amenities : List Amenity
  operatingHours : List OperatingHours
deriving DecidableEq, Repr

/-- The Go zero value of Salon, used by decoders that start from an empty
struct. -/
def emptySalon : Salon :=
  { id := 0, name := "", slug := "", description := none
    location := { address := "", city := "", state := "", postalCode := ""
                  country := "", geoPoint := none }
    contact := { phone := "", email := "", website := "" }
    categoryID := none, priceRange := 0, rating := none, reviewCount := 0
    isActive := false, isVerified := false, category := none
    services := [], amenities := [], operatingHours := [] }

/-- Condition of the first check in Salon.Validate:
`strings.TrimSpace(s.Name) == ""`. -/
def Salon.nameMissing (s : Salon) : Bool := isBlank s.name

/-- Condition of the second check in Salon.Validate: `len(s.Name) > 255`. -/
def Salon.nameTooLong (s : Salon) : Bool := 255 < strBytes s.name

/-- Condition of the third check in Salon.Validate:
`strings.TrimSpace(s.Slug) == ""`. -/
def Salon.slugMissing (s : Salon) : Bool := isBlank s.slug

/-- Condition of the fourth check in Salon.Validate:
`s.PriceRange != 0 && !s.PriceRange.IsValid()`. -/
def Salon.priceRangeInvalid (s : Salon) : Bool :=
  s.priceRange ≠ 0 && !s.priceRange.IsValid

/-- Condition of the fifth check in Salon.Validate:
`s.Rating != nil && (*s.Rating < 0 || *s.Rating > 5)`. -/
def Salon.ratingInvalid (s : Salon) : Bool :=
  match s.rating with
  | some r => r < 0 || 5 < r
  | none => false

/-- Condition of the sixth check in Salon.Validate:
`s.Location.GeoPoint != nil && !s.Location.GeoPoint.IsValid()`. -/
def Salon.geoInvalid (s : Salon) : Bool :=
  match s.location.geoPoint with
  | some g => !g.IsValid
  | none => false

/-- The accumulated error list built by Salon.Validate (salon.go), in the
order the Go code appends the messages. -/
def Salon.validateErrors (s : Salon) : List String :=
  (if s.nameMissing then ["name is required"] else [])
  ++ (if s.nameTooLong then ["name must be less than 255 characters"] else [])
  ++ (if s.slugMissing then ["slug is required"] else [])
  ++ (if s.priceRangeInvalid then ["price_range must be between 1 and 4"] else [])
  ++ (if s.ratingInvalid then ["rating must be between 0 and 5"] else [])
  ++ (if s.geoInvalid then ["invalid geo coordinates"] else [])

/-- Salon.Validate (salon.go): `none` is success, `some msg` is the error
joining all violated invariants with "; ". -/
def Salon.Validate (s : Salon) : Option String :=
  if s.validateErrors.isEmpty then none
  else some (String.intercalate "; " s.validateErrors)

/-- Salon.IsOpen (salon.go).  The Go function takes a `time.Time` and
extracts `int(t.Weekday())` and `t.Format("15:04:05")`; the embedding
takes that day-of-week and time-of-day string directly. -/
def Salon.IsOpen (s : Salon) (dayOfWeek : Int) (currentTime : String) : Bool :=
  if s.operatingHours.isEmpty then false
  else s.operatingHours.any fun oh =>
    oh.dayOfWeek == dayOfWeek && !oh.isClosed &&
      (strLe oh.openTime currentTime && strLe currentTime oh.closeTime)

/-! ### Search parameters (internal/domain/salon.go) -/

/-- SortOption (salon.go) is a string type. -/
abbrev SortOption := String

/-- SortByRelevance (salon.go). -/
def SortByRelevance : SortOption := "relevance"

/-- SortByRating (salon.go). -/
def SortByRating : SortOption := "rating"

/-- SortByDistance (salon.go). -/
def SortByDistance : SortOption := "distance"

/-- SortByNewest (salon.go). -/
def SortByNewest : SortOption := "newest"

/-- SortByReviews (salon.go). -/
def SortByReviews : SortOption := "reviews"

/-- SalonSearchParams (salon.go). -/
structure SalonSearchParams where
  query : String
  city : String
  categoryID : Option Int
  priceRange : PriceRange
  minRating : Option ℚ
  isVerified : Option Bool
  location : Option GeoPoint
  radiusKm : Option ℚ
  page : Int
  pageSize : Int
  sortBy : SortOption
deriving DecidableEq, Repr

/-! ### Search results and pagination (internal/domain/salon.go) -/

/-- SalonSearchResult (salon.go): salon plus optional search metadata.
Score is a plain float64 in Go (0 when absent), Distance a pointer,
Highlights a map from field name to fragment (modelled as an association
list). -/
structure SalonSearchResult where
  salon : Salon
  score : ℚ
  distance : Option ℚ
  highlights : List (String × String)
deriving DecidableEq, Repr

/-- JSON field names of SalonSearchResult (salon.go struct tags); score,
distance_km and highlights carry `omitempty`. -/
def SalonSearchResultJsonFields : List String :=
  ["salon", "score", "distance_km", "highlights"]

/-- SearchResponse (internal/domain/salon.go). -/
structure SearchResponse where
  results : List SalonSearchResult
  total : Int
  page : Int
  pageSize : Int
  totalPages : Int
  query : String
  source : String
deriving DecidableEq, Repr

/-- JSON field names of domain.SearchResponse (salon.go struct tags);
query and source carry `omitempty`. -/
def SearchResponseJsonFields : List String :=
  ["results", "total", "page", "page_size", "total_pages", "query", "source"]

/-- The total-page computation inside NewSearchResponse (salon.go):
`totalPages := int(total) / params.PageSize; if int(total) % params.PageSize > 0
{ totalPages++ }`.  Operands are non-negative on every path that reaches
this code, where Go's truncated division agrees with Lean's `Int`
division. -/
def NewSearchResponseTotalPages (total pageSize : Int) : Int :=
  total / pageSize + (if 0 < total % pageSize then 1 else 0)

/-- NewSearchResponse (salon.go); Source is left at its zero value. -/
def NewSearchResponse (results : List SalonSearchResult) (total : Int)
    (params : SalonSearchParams) : SearchResponse :=
  { results := results, total := total, page := params.page
    pageSize := params.pageSize
    totalPages := NewSearchResponseTotalPages total params.pageSize
    query := params.query, source := "" }

/-! ### HTTP handler response (internal/api/handlers/handlers.go) -/

/-- handlers.SearchResponse (handlers.go): the envelope actually returned
by the search endpoints.  Its Data field is a bare list of Salons. -/
structure HandlerSearchResponse where
  data : List Salon
  total : Int
  page : Int
  pageSize : Int
  totalPages : Int
  source : String
deriving DecidableEq, Repr

/-- JSON field names of handlers.SearchResponse (handlers.go struct tags);
none of them carries `omitempty`, so every serialized envelope has exactly
these keys. -/
def HandlerSearchResponseJsonFields : List String :=
  ["data", "total", "page", "page_size", "total_pages", "source"]

/-- The JSON keys of a serialized handler envelope. -/
def HandlerSearchResponse.jsonFields (_ : HandlerSearchResponse) : List String :=
  HandlerSearchResponseJsonFields

/-- The total-page computation inside Handler.sendSearchResponse
(handlers.go): `totalPages := (total + params.PageSize - 1) / params.PageSize`. -/
def sendSearchResponseTotalPages (total pageSize : Int) : Int :=
  (total + pageSize - 1) / pageSize

/-- Handler.sendSearchResponse (handlers.go): wraps the salons returned by
either backend, computing the pagination block. -/
def sendSearchResponse (salons : List Salon) (total : Int)
    (params : SalonSearchParams) (source : String) : HandlerSearchResponse :=
  { data := salons, total := total, page := params.page
    pageSize := params.pageSize
    totalPages := sendSearchResponseTotalPages total params.pageSize
    source := source }

/-! ### Elasticsearch documents (unnamed search client, salonToDocument /
documentToSalon) -/

/-- One entry of the nested `services` array written by salonToDocument:
`{name, price_min, price_max}`.  The pointer-typed prices marshal to
`null` when nil, kept here as `Option`. -/
structure SvcEntry where
  name : String
  priceMin : Option ℚ
  priceMax : Option ℚ
deriving DecidableEq, Repr

/-- The JSON values that actually occur in the documents the client
builds (`map[string]interface{}`): scalars, the `{lat, lon}` geo object,
the nested services array and the flat string array of amenity names. -/
inductive DocValue where
  | null : DocValue
  | bool (b : Bool) : DocValue
  | num (q : ℚ) : DocValue
  | str (s : String) : DocValue
  | geo (lat lon : ℚ) : DocValue
  | svcArr (services : List SvcEntry) : DocValue
  | strArr (ss : List String) : DocValue
deriving DecidableEq, Repr

/-- An Elasticsearch document, `map[string]interface{}` in the Go client,
modelled as an association list in the order the Go code inserts the
keys. -/
abbrev ESDoc := List (String × DocValue)

/-- JSON marshalling of a Go `*string`: nil becomes null. -/
def optStrVal : Option String → DocValue
  | none => DocValue.null
  | some s => DocValue.str s

/-- JSON marshalling of a Go `*float64`: nil becomes null. -/
def optNumVal : Option ℚ → DocValue
  | none => DocValue.null
  | some q => DocValue.num q

/-- JSON marshalling of a Go `*int64`: nil becomes null. -/
def optIntVal : Option Int → DocValue
  | none => DocValue.null
  | some i => DocValue.num i

/-- salonToDocument (search client): the document written to the index.
The base map is built unconditionally (pointer fields marshal to null);
location, category_name, services and amenities are added only when
present / non-empty. -/
def salonToDocument (salon : Salon) : ESDoc :=
  [("id", DocValue.num salon.id),
   ("name", DocValue.str salon.name),
   ("slug", DocValue.str salon.slug),
   ("description", optStrVal salon.description),
   ("address", DocValue.str salon.location.address),
   ("city", DocValue.str salon.location.city),
   ("state", DocValue.str salon.location.state),
   ("country", DocValue.str salon.location.country),
   ("phone", DocValue.str salon.contact.phone),
   ("email", DocValue.str salon.contact.email),
   ("website", DocValue.str salon.contact.website),
   ("category_id", optIntVal salon.categoryID),
   ("price_range", DocValue.num salon.priceRange),
   ("rating", optNumVal salon.rating),
   ("review_count", DocValue.num salon.reviewCount),
   ("is_active", DocValue.bool salon.isActive),
   ("is_verified", DocValue.bool salon.isVerified)]
  ++ (match salon.location.geoPoint with
      | some g => [("location", DocValue.geo g.latitude g.longitude)]
      | none => [])
  ++ (match salon.category with
      | some c => [("category_name", DocValue.str c.name)]
      | none => [])
  ++ (if 0 < salon.services.length then
        [("services", DocValue.svcArr (salon.services.map fun s =>
          { name := s.name, priceMin := s.priceMin, priceMax := s.priceMax }))]
      else [])
  ++ (if 0 < salon.amenities.length then
        [("amenities", DocValue.strArr (salon.amenities.map fun a => a.name))]
      else [])

/-- Go `int64(v)` / `int(v)` conversion of a float64: truncation toward
zero. -/
def floatToInt (q : ℚ) : Int := q.num.tdiv q.den

/-- Successful Go type assertion `doc[k].(string)`. -/
def docStr (doc : ESDoc) (k : String) : Option String :=
  match doc.lookup k with
  | some (DocValue.str v) => some v
  | _ => none

/-- Successful Go type assertion `doc[k].(float64)`. -/
def docNum (doc : ESDoc) (k : String) : Option ℚ :=
  match doc.lookup k with
  | some (DocValue.num v) => some v
  | _ => none

/-- Successful Go type assertion `doc[k].(bool)`. -/
def docBool (doc : ESDoc) (k : String) : Option Bool :=
  match doc.lookup k with
  | some (DocValue.bool v) => some v
  | _ => none

/-- documentToSalon (search client): decodes a hit's `_source` back into
a Salon, starting from the zero Salon and setting each field only when
the corresponding type assertion succeeds.  Services and operating hours
are never decoded. -/
def documentToSalon (doc : ESDoc) : Salon :=
  { emptySalon with
    id := match docNum doc "id" with
      | some v => floatToInt v
      | none => 0
    name := (docStr doc "name").getD ""
    slug := (docStr doc "slug").getD ""
    description := docStr doc "description"
    location :=
      { address := (docStr doc "address").getD ""
        city := (docStr doc "city").getD ""
        state := (docStr doc "state").getD ""
        postalCode := ""
        country := (docStr doc "country").getD ""
        geoPoint := match doc.lookup "location" with
          | some (DocValue.geo lat lon) => some { latitude := lat, longitude := lon }
          | _ => none }
    contact :=
      { phone := (docStr doc "phone").getD ""
        email := (docStr doc "email").getD ""
        website := (docStr doc "website").getD "" }
    rating := docNum doc "rating"
    reviewCount := match docNum doc "review_count" with
      | some v => floatToInt v
      | none => 0
    priceRange := match docNum doc "price_range" with
      | some v => floatToInt v
      | none => 0
    isVerified := (docBool doc "is_verified").getD false
    isActive := (docBool doc "is_active").getD false
    category := (docStr doc "category_name").map fun nm =>
      { id := 0, name := nm, slug := "" }
    categoryID := (docNum doc "category_id").map floatToInt
    amenities := match doc.lookup "amenities" with
      | some (DocValue.strArr ss) => ss.map fun nm => { id := 0, name := nm, icon := "" }
      | _ => [] }

/-- One hit of an Elasticsearch response: its `_score` and its
`_source`. -/
structure ESHit where
  score : ℚ
  source : ESDoc
deriving DecidableEq, Repr

/-- The response parsing of ElasticsearchClient.Search (search client):
given the hits list and the reported total, it returns the decoded
salons and the total.  The loop reads only `hit["_source"]`; `_score` is
never read. -/
def esSearch (hits : List ESHit) (total : Int) : List Salon × Int :=
  (hits.map fun h => documentToSalon h.source, total)

/-! ### Elasticsearch query compiler (buildQuery in the search client) -/

/-- The non-scoring filter clauses emitted by buildQuery. -/
inductive ESFilter where
  | term (field : String) (v : DocValue)
  | rangeGte (field : String) (v : ℚ)
  | geoDistance (lat lon radiusKm : ℚ)
deriving DecidableEq, Repr

/-- The filter list built by buildQuery, in the order the Go code appends
the clauses.  is_active is always filtered; city uses a term query on the
raw parameter string (the index maps `city` as a `keyword` field, so a
term query is an exact, case-sensitive match). -/
def esFilters (params : SalonSearchParams) : List ESFilter :=
  [ESFilter.term "is_active" (DocValue.bool true)]
  ++ (if params.city ≠ "" then [ESFilter.term "city" (DocValue.str params.city)] else [])
  ++ (match params.categoryID with
      | some cid => [ESFilter.term "category_id" (DocValue.num cid)]
      | none => [])
  ++ (if params.priceRange ≠ 0 then
        [ESFilter.term "price_range" (DocValue.num params.priceRange)]
      else [])
  ++ (match params.minRating with
      | some m => [ESFilter.rangeGte "rating" m]
      | none => [])
  ++ (if params.isVerified = some true then
        [ESFilter.term "is_verified" (DocValue.bool true)]
      else [])
  ++ (match params.location with
      | some loc =>
        match params.radiusKm with
        | some rad => [ESFilter.geoDistance loc.latitude loc.longitude rad]
        | none => []
      | none => [])

/-- Semantics of one filter clause against an indexed document: a term
query on a keyword / numeric / boolean field matches exactly the stored
value; a range `gte` matches a stored number at least the bound; a
geo_distance filter matches documents whose `location` lies within the
radius (documents without the field never match). -/
def ESFilter.Holds : ESFilter → ESDoc → Prop
  | ESFilter.term f v, d => d.lookup f = some v
  | ESFilter.rangeGte f m, d => ∃ q, d.lookup f = some (DocValue.num q) ∧ m ≤ q
  | ESFilter.geoDistance lat lon rad, d => ∃ la lo,
      d.lookup "location" = some (DocValue.geo la lo) ∧
      GeoPoint.DistanceTo { latitude := la, longitude := lo }
        { latitude := lat, longitude := lon } ≤ (rad : ℝ)

/-- Abstract semantics of the fuzzy multi_match must-clause; the engine's
linguistic behaviour is not re-implemented. -/
abbrev MultiMatchOracle := String → ESDoc → Prop

/-- A document matches the bool query built by buildQuery iff the must
part holds (multi_match when a text query was given, match_all otherwise)
and every filter clause holds. -/
def esQueryMatches (mm : MultiMatchOracle) (params : SalonSearchParams)
    (doc : ESDoc) : Prop :=
  (params.query ≠ "" → mm params.query doc) ∧
  ∀ f ∈ esFilters params, f.Holds doc

/-- The sort clauses buildQuery can emit. -/
inductive ESSort where
  | ratingDescMissingLast
  | reviewCountDesc
  | createdAtDesc
  | geoDistanceAsc (lat lon : ℚ)
  | scoreDesc
deriving DecidableEq, Repr

/-- The sort list built by buildQuery, mirroring the Go switch on
params.SortBy.  In the distance case with no geo-center the switch arm
appends nothing, leaving the sort list empty. -/
def esSortList (params : SalonSearchParams) : List ESSort :=
  if params.sortBy = SortByRating then [ESSort.ratingDescMissingLast]
  else if params.sortBy = SortByReviews then [ESSort.reviewCountDesc]
  else if params.sortBy = SortByNewest then [ESSort.createdAtDesc]
  else if params.sortBy = SortByDistance then
    match params.location with
    | some loc => [ESSort.geoDistanceAsc loc.latitude loc.longitude]
    | none => []
  else [ESSort.scoreDesc, ESSort.ratingDescMissingLast]

/-! ### Relational query compiler (internal/repository/postgres.go) -/

/-- salonRow (postgres.go): a salon row as selected from the database,
with the joined category name.  The window-function total and the
timestamps are irrelevant to every claim and omitted. -/
structure SalonRow where
  id : Int
  name : String
  slug : String
  description : Option String
  address : Option String
  city : Option String
  state : Option String
  postalCode : Option String
  country : Option String
  latitude : Option ℚ
  longitude : Option ℚ
  phone : Option String
  email : Option String
  website : Option String
  categoryID : Option Int
  priceRange : Option Int
  rating : Option ℚ
  reviewCount : Option Int
  isActive : Bool
  isVerified : Bool
  categoryName : Option String
deriving DecidableEq, Repr

/-- salonRow.toDomain (postgres.go).  When a category name was joined the
Go code dereferences `*r.CategoryID` (the LEFT JOIN guarantees it is
non-nil there); the embedding reads it with default 0. -/
def SalonRow.toDomain (r : SalonRow) : Salon :=
  { id := r.id
    name := r.name
    slug := r.slug
    description := r.description
    categoryID := r.categoryID
    isActive := r.isActive
    isVerified := r.isVerified
    location :=
      { address := r.address.getD ""
        city := r.city.getD ""
        state := r.state.getD ""
        postalCode := r.postalCode.getD ""
        country := r.country.getD ""
        geoPoint := match r.latitude with
          | some la =>
            match r.longitude with
            | some lo => some { latitude := la, longitude := lo }
            | none => none
          | none => none }
    contact :=
      { phone := r.phone.getD ""
        email := r.email.getD ""
        website := r.website.getD "" }
    priceRange := r.priceRange.getD 0
    rating := r.rating
    reviewCount := r.reviewCount.getD 0
    category := r.categoryName.map fun nm =>
      { id := r.categoryID.getD 0, name := nm, slug := "" }
    services := [], amenities := [], operatingHours := [] }

/-- Abstract semantics of the `to_tsvector @@ plainto_tsquery` full-text
clause; the linguistic matching lives in the database. -/
abbrev TextMatch := String → SalonRow → Prop

/-- Degrees to radians, the SQL `radians()` function. -/
noncomputable def radians (q : ℚ) : ℝ := (q : ℝ) * Real.pi / 180

/-- The spherical-law-of-cosines distance the SQL geo predicate computes:
`6371 * acos(cos(radians(lat)) * cos(radians(s.latitude)) *
cos(radians(s.longitude) - radians(lon)) + sin(radians(lat)) *
sin(radians(s.latitude)))`. -/
noncomputable def sqlGeoDistance (lat lon rowLat rowLon : ℚ) : ℝ :=
  6371 * Real.arccos (Real.cos (radians lat) * Real.cos (radians rowLat) *
    Real.cos (radians rowLon - radians lon) +
    Real.sin (radians lat) * Real.sin (radians rowLat))

/-- The WHERE clauses SearchSalons (postgres.go) can emit. -/
inductive PgClause where
  | isActiveTrue
  | textSearch (q : String)
  | cityLowerEq (city : String)
  | categoryEq (cid : Int)
  | priceRangeEq (p : Int)
  | ratingGe (m : ℚ)
  | verifiedTrue
  | geoWithin (lat lon radiusKm : ℚ)
deriving DecidableEq, Repr

/-- The WHERE clause list built by SearchSalons (postgres.go), in the
order the Go code appends the SQL fragments.  The base query always
filters `s.is_active = true`. -/
def pgWhereClauses (params : SalonSearchParams) : List PgClause :=
  [PgClause.isActiveTrue]
  ++ (if params.query ≠ "" then [PgClause.textSearch params.query] else [])
  ++ (if params.city ≠ "" then [PgClause.cityLowerEq params.city] else [])
  ++ (match params.categoryID with
      | some cid => [PgClause.categoryEq cid]
      | none => [])
  ++ (if params.priceRange ≠ 0 then [PgClause.priceRangeEq params.priceRange] else [])
  ++ (match params.minRating with
      | some m => [PgClause.ratingGe m]
      | none => [])
  ++ (if params.isVerified = some true then [PgClause.verifiedTrue] else [])
  ++ (match params.location with
      | some loc =>
        match params.radiusKm with
        | some rad => [PgClause.geoWithin loc.latitude loc.longitude rad]
        | none => []
      | none => [])

/-- SQL semantics of one WHERE clause against a row.  Comparisons with a
NULL column are not satisfied (SQL three-valued logic never lets a NULL
comparison pass a WHERE clause); `LOWER(s.city) = LOWER($n)` compares the
lowercased strings. -/
def PgClause.Holds (tm : TextMatch) : PgClause → SalonRow → Prop
  | PgClause.isActiveTrue, r => r.isActive = true
  | PgClause.textSearch q, r => tm q r
  | PgClause.cityLowerEq c, r => ∃ city, r.city = some city ∧ strLower city = strLower c
  | PgClause.categoryEq cid, r => r.categoryID = some cid
  | PgClause.priceRangeEq p, r => r.priceRange = some p
  | PgClause.ratingGe m, r => ∃ rt, r.rating = some rt ∧ m ≤ rt
  | PgClause.verifiedTrue, r => r.isVerified = true
  | PgClause.geoWithin lat lon rad, r => ∃ la lo,
      r.latitude = some la ∧ r.longitude = some lo ∧
      sqlGeoDistance lat lon la lo ≤ (rad : ℝ)

/-- A row satisfies the compiled WHERE clause iff it satisfies every
emitted clause (they are joined with AND). -/
def pgRowMatches (tm : TextMatch) (params : SalonSearchParams)
    (row : SalonRow) : Prop :=
  ∀ c ∈ pgWhereClauses params, c.Holds tm row

/-- The ORDER BY expressions SearchSalons (postgres.go) can emit. -/
inductive PgOrder where
  | ratingDescReviewsDesc
  | reviewsDescRatingDesc
  | createdAtDesc
  | distanceAsc (lat lon : ℚ)
  | ratingDescNullsLast
  | weightedScoreDesc
deriving DecidableEq, Repr

/-- The ORDER BY selection of SearchSalons (postgres.go): the Go switch
on params.SortBy, with the distance case falling back to
`ORDER BY s.rating DESC NULLS LAST` when no geo-center was supplied and
the default case using the fixed weighted ranking expression. -/
def pgOrderBy (params : SalonSearchParams) : PgOrder :=
  if params.sortBy = SortByRating then PgOrder.ratingDescReviewsDesc
  else if params.sortBy = SortByReviews then PgOrder.reviewsDescRatingDesc
  else if params.sortBy = SortByNewest then PgOrder.createdAtDesc
  else if params.sortBy = SortByDistance then
    match params.location with
    | some loc => PgOrder.distanceAsc loc.latitude loc.longitude
    | none => PgOrder.ratingDescNullsLast
  else PgOrder.weightedScoreDesc

/-! ### Fetch-salon-by-id (internal/repository/postgres.go) -/

/-- The relational state GetSalonByID reads: salon rows, service rows,
the amenity table with its salon_amenities join table, and operating-hour
rows. -/
structure Db where
  salons : List SalonRow
  services : List Service
  amenities : List Amenity
  amenityLinks : List (Int × Int)
  hours : List OperatingHours
deriving Repr

/-- GetSalonByID (postgres.go): selects the row with the given id — with
no is_active predicate — and attaches the services, amenities (via the
salon_amenities join) and operating hours (ordered by day_of_week) of
that salon. -/
def GetSalonByID (db : Db) (id : Int) : Option Salon :=
  match db.salons.find? (fun r => r.id == id) with
  | none => none
  | some row => some
    { row.toDomain with
      services := db.services.filter (fun sv => sv.salonID == id)
      amenities := (db.amenityLinks.filter (fun l => l.1 == id)).filterMap
        (fun l => db.amenities.find? (fun a => a.id == l.2))
      operatingHours := (db.hours.filter (fun oh => oh.salonID == id)).mergeSort
        (fun a b => a.dayOfWeek ≤ b.dayOfWeek) }

/-! ### Concrete fixtures used by witnesses and counterexamples -/

/-- A search-parameter value with every filter off and the defaulted
pagination (page 1, page size 10), relevance sort. -/
def emptyParams : SalonSearchParams :=
  { query := "", city := "", categoryID := none, priceRange := 0
    minRating := none, isVerified := none, location := none, radiusKm := none
    page := 1, pageSize := 10, sortBy := SortByRelevance }

/-- City filter written in lower case. -/
def cityParamsLower : SalonSearchParams := { emptyParams with city := "mar del plata" }

/-- The same city filter in its canonical capitalisation. -/
def cityParamsTitle : SalonSearchParams := { emptyParams with city := "Mar del Plata" }

/-- Distance sort requested with no geo-center. -/
def distNoLocParams : SalonSearchParams := { emptyParams with sortBy := SortByDistance }

/-- A trivially-true full-text oracle. -/
def tmTrue : TextMatch := fun _ _ => True

/-- A trivially-true multi-match oracle. -/
def mmTrue : MultiMatchOracle := fun _ _ => True

/-- An active database row whose city is stored as "Mar del Plata". -/
def rowMDP : SalonRow :=
  { id := 1, name := "Estilo Mar", slug := "estilo-mar", description := none
    address := none, city := some "Mar del Plata", state := none
    postalCode := none, country := none, latitude := none, longitude := none
    phone := none, email := none, website := none, categoryID := none
    priceRange := none, rating := none, reviewCount := none
    isActive := true, isVerified := false, categoryName := none }

/-- The indexed document of an active salon in "Mar del Plata" (as
salonToDocument would store the city verbatim). -/
def docMDP : ESDoc :=
  [("id", DocValue.num 1), ("name", DocValue.str "Estilo Mar"),
   ("city", DocValue.str "Mar del Plata"), ("is_active", DocValue.bool true)]

/-- A small decoded `_source` document. -/
def demoDoc : ESDoc :=
  [("id", DocValue.num 1), ("name", DocValue.str "Estilo Mar"),
   ("slug", DocValue.str "estilo-mar"), ("is_active", DocValue.bool true)]

/-- A salon with every optional field absent. -/
def bareSalon : Salon := { emptySalon with id := 1, name := "X", slug := "x", isActive := true }

/-- The salon of the operating-hours example: open Monday 09:00-18:00,
closed Sunday. -/
def mondaySalon : Salon :=
  { emptySalon with operatingHours :=
      [{ id := 1, salonID := 1, dayOfWeek := 1, openTime := "09:00:00"
         closeTime := "18:00:00", isClosed := false },
       { id := 2, salonID := 1, dayOfWeek := 0, openTime := "00:00:00"
         closeTime := "00:00:00", isClosed := true }] }

/-- A deactivated salon row. -/
def inactiveRow : SalonRow :=
  { rowMDP with id := 7, slug := "cerrado", isActive := false }

/-- A database holding only the deactivated salon, one of its services,
one amenity and one operating-hours row. -/
def demoDb : Db :=
  { salons := [inactiveRow]
    services := [{ id := 11, salonID := 7, name := "Corte", description := none
                   priceMin := some 30, priceMax := some 50, durationMinutes := some 45 }]
    amenities := [{ id := 3, name := "WiFi Gratis", icon := "wifi" }]
    amenityLinks := [(7, 3)]
    hours := [{ id := 21, salonID := 7, dayOfWeek := 1, openTime := "09:00:00"
                closeTime := "18:00:00", isClosed := false }] }

/-! ### Helper lemmas -/

/-- Membership in a conditional singleton list. -/
theorem mem_ite_singleton {α : Type} {P : Prop} [Decidable P] {m x : α} :
    (x ∈ (if P then [m] else [])) ↔ (x = m ∧ P) := by
  split <;> simp_all

/-- A conditional singleton list is empty iff its condition fails. -/
theorem ite_singleton_eq_nil {α : Type} {P : Prop} [Decidable P] {m : α} :
    ((if P then [m] else []) = []) ↔ ¬ P := by
  split <;> simp_all

/-- Quantifying over a conditional singleton list. -/
theorem forall_mem_ite_singleton {α : Type} {P : Prop} [Decidable P] {m : α}
    {H : α → Prop} : (∀ c ∈ (if P then [m] else []), H c) ↔ (P → H m) := by
  split <;> simp_all

/-- Ceiling-division characterisation of the handler formula
`(a + b - 1) / b` for non-negative numerators. -/
theorem handler_formula_eq_ceil (a b : ℤ) (hb : 1 ≤ b) :
    (a + b - 1) / b = ⌈(a : ℚ) / (b : ℚ)⌉ := by
  have hb0 : (0 : ℤ) < b := by omega
  have hbq : (0 : ℚ) < (b : ℚ) := by exact_mod_cast hb0
  have key := Int.ediv_add_emod (a + b - 1) b
  have hr0 : 0 ≤ (a + b - 1) % b := Int.emod_nonneg _ (by omega)
  have hrb : (a + b - 1) % b < b := Int.emod_lt_of_pos _ hb0
  symm
  rw [Int.ceil_eq_iff]
  constructor
  · rw [lt_div_iff₀ hbq]
    have h1 : ((a + b - 1) / b - 1) * b < a := by
      have e : ((a + b - 1) / b - 1) * b = b * ((a + b - 1) / b) - b := by ring
      linarith
    exact_mod_cast h1
  · rw [div_le_iff₀ hbq]
    have h2 : a ≤ ((a + b - 1) / b) * b := by
      have e : ((a + b - 1) / b) * b = b * ((a + b - 1) / b) := by ring
      linarith
    exact_mod_cast h2

/-- The increment formula of NewSearchResponse agrees with the handler
formula on non-negative totals. -/
theorem increment_formula_eq_handler (a b : ℤ) (hb : 1 ≤ b) :
    a / b + (if 0 < a % b then 1 else 0) = (a + b - 1) / b := by
  have hb0 : (0 : ℤ) < b := by omega
  have key := Int.ediv_add_emod a b
  have hr0 : 0 ≤ a % b := Int.emod_nonneg _ (by omega)
  have hrb : a % b < b := Int.emod_lt_of_pos _ hb0
  have decomp : a + b - 1 = (a % b + b - 1) + b * (a / b) := by linarith
  have main : (a % b + b - 1) / b = if 0 < a % b then 1 else 0 := by
    by_cases hr : 0 < a % b
    · have e1 : a % b + b - 1 = (a % b - 1) + 1 * b := by ring
      have hz : (a % b - 1) / b = 0 := Int.ediv_eq_zero_of_lt (by omega) (by omega)
      rw [if_pos hr, e1, Int.add_mul_ediv_right _ _ (by omega : b ≠ 0), hz]
      ring
    · have hz : (a % b + b - 1) / b = 0 := Int.ediv_eq_zero_of_lt (by omega) (by omega)
      rw [if_neg hr, hz]
  rw [decomp, Int.add_mul_ediv_left _ _ (by omega : b ≠ 0), main]
  ring

/-! ### C9 -/

/-- C9: the great-circle distance function is commutative, and the
distance from any point to itself is exactly zero (the embedding works
over the reals, so no floating-point tolerance is needed). -/
theorem C9_distance_comm_and_self_zero :
    (∀ a b : GeoPoint, a.DistanceTo b = b.DistanceTo a) ∧
    (∀ p : GeoPoint, p.DistanceTo p = 0) := by
  constructor
  · intro g o
    unfold GeoPoint.DistanceTo
    have e1 : ((g.latitude : ℝ) - (o.latitude : ℝ)) * Real.pi / 180 / 2
        = -(((o.latitude : ℝ) - (g.latitude : ℝ)) * Real.pi / 180 / 2) := by ring
    have e2 : ((g.longitude : ℝ) - (o.longitude : ℝ)) * Real.pi / 180 / 2
        = -(((o.longitude : ℝ) - (g.longitude : ℝ)) * Real.pi / 180 / 2) := by ring
    simp only [e1, e2, Real.sin_neg]
    ring_nf
  · intro p
    unfold GeoPoint.DistanceTo
    simp [atan2]

/-! ### C8 -/

/-- C8: for total ≥ 0 and pageSize ≥ 1 both pagination-block builders —
NewSearchResponse in the domain package and Handler.sendSearchResponse —
compute totalPages = ceil(total / pageSize), they agree with each other,
and the concrete examples 25/10 → 3 and 20/10 → 2 hold. -/
theorem C8_total_pages_ceil (total pageSize : Int)
    (ht : 0 ≤ total) (hp : 1 ≤ pageSize) :
    NewSearchResponseTotalPages total pageSize = ⌈(total : ℚ) / (pageSize : ℚ)⌉
    ∧ sendSearchResponseTotalPages total pageSize = ⌈(total : ℚ) / (pageSize : ℚ)⌉
    ∧ NewSearchResponseTotalPages total pageSize
        = sendSearchResponseTotalPages total pageSize
    ∧ NewSearchResponseTotalPages 25 10 = 3 ∧ NewSearchResponseTotalPages 20 10 = 2
    ∧ sendSearchResponseTotalPages 25 10 = 3 ∧ sendSearchResponseTotalPages 20 10 = 2 := by
  have hagree : NewSearchResponseTotalPages total pageSize
      = sendSearchResponseTotalPages total pageSize := by
    unfold NewSearchResponseTotalPages sendSearchResponseTotalPages
    exact increment_formula_eq_handler total pageSize hp
  have hceil : sendSearchResponseTotalPages total pageSize
      = ⌈(total : ℚ) / (pageSize : ℚ)⌉ :=
    handler_formula_eq_ceil total pageSize hp
  exact ⟨hagree.trans hceil, hceil, hagree, by decide, by decide, by decide, by decide⟩

/-- Concrete instantiation of C8_total_pages_ceil at total = 25,
pageSize = 10. -/
theorem C8_total_pages_ceil_witness :
    (0 : Int) ≤ 25 ∧ (1 : Int) ≤ 10 ∧
    (NewSearchResponseTotalPages 25 10 = ⌈(25 : ℚ) / (10 : ℚ)⌉
     ∧ sendSearchResponseTotalPages 25 10 = ⌈(25 : ℚ) / (10 : ℚ)⌉
     ∧ NewSearchResponseTotalPages 25 10 = sendSearchResponseTotalPages 25 10
     ∧ NewSearchResponseTotalPages 25 10 = 3 ∧ NewSearchResponseTotalPages 20 10 = 2
     ∧ sendSearchResponseTotalPages 25 10 = 3 ∧ sendSearchResponseTotalPages 20 10 = 2) :=
  ⟨by decide, by decide, C8_total_pages_ceil 25 10 (by decide) (by decide)⟩

/-! ### C7 -/

/-- C7: IsOpen is true exactly when some operating-hours entry is not
marked closed, matches the day-of-week, and contains the time-of-day in
its inclusive [open, close] interval; a salon with no entries is closed
at every time, and the Monday/Sunday examples behave as specified. -/
theorem C7_isOpen_characterisation (s : Salon) (day : Int) (t : String) :
    (s.IsOpen day t = true ↔ ∃ oh ∈ s.operatingHours,
      oh.dayOfWeek = day ∧ oh.isClosed = false ∧
      strLe oh.openTime t = true ∧ strLe t oh.closeTime = true)
    ∧ ({ s with operatingHours := [] } : Salon).IsOpen day t = false
    ∧ mondaySalon.IsOpen 1 "10:00:00" = true
    ∧ mondaySalon.IsOpen 1 "20:00:00" = false
    ∧ mondaySalon.IsOpen 0 "10:00:00" = false := by
  refine ⟨?_, by simp [Salon.IsOpen], by decide, by decide, by decide⟩
  rw [Salon.IsOpen]
  by_cases hE : s.operatingHours.isEmpty = true
  · rw [List.isEmpty_iff] at hE
    simp [hE]
  · simp only [if_neg hE]
    simp [List.any_eq_true, Bool.and_eq_true, beq_iff_eq, and_assoc]

/-! ### C6 -/

/-- The accumulated error list is empty iff none of the six checks
fired. -/
theorem validateErrors_eq_nil (s : Salon) :
    s.validateErrors = [] ↔
      (s.nameMissing = false ∧ s.nameTooLong = false ∧ s.slugMissing = false ∧
       s.priceRangeInvalid = false ∧ s.ratingInvalid = false ∧ s.geoInvalid = false) := by
  simp [Salon.validateErrors, List.append_eq_nil, ite_singleton_eq_nil]

/-- Membership of the name-required message. -/
theorem validateErrors_mem_name (s : Salon) :
    "name is required" ∈ s.validateErrors ↔ s.nameMissing = true := by
  simp +decide [Salon.validateErrors, List.mem_append, mem_ite_singleton]

/-- Membership of the name-length message. -/
theorem validateErrors_mem_name_length (s : Salon) :
    "name must be less than 255 characters" ∈ s.validateErrors ↔ s.nameTooLong = true := by
  simp +decide [Salon.validateErrors, List.mem_append, mem_ite_singleton]

/-- Membership of the slug-required message. -/
theorem validateErrors_mem_slug (s : Salon) :
    "slug is required" ∈ s.validateErrors ↔ s.slugMissing = true := by
  simp +decide [Salon.validateErrors, List.mem_append, mem_ite_singleton]

/-- Membership of the price-range message. -/
theorem validateErrors_mem_price (s : Salon) :
    "price_range must be between 1 and 4" ∈ s.validateErrors ↔
      s.priceRangeInvalid = true := by
  simp +decide [Salon.validateErrors, List.mem_append, mem_ite_singleton]

/-- Membership of the rating message. -/
theorem validateErrors_mem_rating (s : Salon) :
    "rating must be between 0 and 5" ∈ s.validateErrors ↔ s.ratingInvalid = true := by
  simp +decide [Salon.validateErrors, List.mem_append, mem_ite_singleton]

/-- Membership of the geo message. -/
theorem validateErrors_mem_geo (s : Salon) :
    "invalid geo coordinates" ∈ s.validateErrors ↔ s.geoInvalid = true := by
  simp +decide [Salon.validateErrors, List.mem_append, mem_ite_singleton]

/-- C6: Validate succeeds iff every invariant holds (name non-blank and
at most 255 bytes, slug non-blank, price tier unset or within [1,4],
rating absent or within [0,5], geo-point absent or valid), and on
failure the returned error joins the messages of exactly the violated
invariants, each violated invariant contributing its message. -/
theorem C6_validate_iff_and_accumulates_all (s : Salon) :
    (s.Validate = none ↔
      (isBlank s.name = false ∧ strBytes s.name ≤ 255 ∧ isBlank s.slug = false ∧
       (s.priceRange = 0 ∨ s.priceRange.IsValid = true) ∧
       (∀ r ∈ s.rating, 0 ≤ r ∧ r ≤ 5) ∧
       (∀ g ∈ s.location.geoPoint, g.IsValid = true)))
    ∧ (s.Validate = none ↔ s.validateErrors = [])
    ∧ ("name is required" ∈ s.validateErrors ↔ isBlank s.name = true)
    ∧ ("name must be less than 255 characters" ∈ s.validateErrors ↔
        255 < strBytes s.name)
    ∧ ("slug is required" ∈ s.validateErrors ↔ isBlank s.slug = true)
    ∧ ("price_range must be between 1 and 4" ∈ s.validateErrors ↔
        (s.priceRange ≠ 0 ∧ s.priceRange.IsValid = false))
    ∧ ("rating must be between 0 and 5" ∈ s.validateErrors ↔
        (∃ r ∈ s.rating, r < 0 ∨ 5 < r))
    ∧ ("invalid geo coordinates" ∈ s.validateErrors ↔
        (∃ g ∈ s.location.geoPoint, g.IsValid = false))
    ∧ (∀ e, s.Validate = some e → e = String.intercalate "; " s.validateErrors) := by
  have hNone : s.Validate = none ↔ s.validateErrors = [] := by
    unfold Salon.Validate
    by_cases h : s.validateErrors.isEmpty <;>
      simp_all [List.isEmpty_iff]
  have b2 : s.nameTooLong = false ↔ strBytes s.name ≤ 255 := by
    simp [Salon.nameTooLong, not_lt]
  have b4 : s.priceRangeInvalid = false ↔
      (s.priceRange = 0 ∨ s.priceRange.IsValid = true) := by
    by_cases h : s.priceRange = 0 <;> cases hv : s.priceRange.IsValid <;>
      simp [Salon.priceRangeInvalid, h, hv]
  have b5 : s.ratingInvalid = false ↔ (∀ r ∈ s.rating, 0 ≤ r ∧ r ≤ 5) := by
    cases hr : s.rating <;> simp [Salon.ratingInvalid, hr, not_lt, not_or]
  have b6 : s.geoInvalid = false ↔ (∀ g ∈ s.location.geoPoint, g.IsValid = true) := by
    cases hg : s.location.geoPoint <;> simp [Salon.geoInvalid, hg]
  refine ⟨?_, hNone, validateErrors_mem_name s, ?_, validateErrors_mem_slug s, ?_, ?_, ?_, ?_⟩
  · rw [hNone, validateErrors_eq_nil, b2, b4, b5, b6]
    exact Iff.rfl
  · rw [validateErrors_mem_name_length s]
    simp [Salon.nameTooLong]
  · rw [validateErrors_mem_price s]
    by_cases h : s.priceRange = 0 <;> cases hv : s.priceRange.IsValid <;>
      simp [Salon.priceRangeInvalid, h, hv]
  · rw [validateErrors_mem_rating s]
    cases hr : s.rating <;> simp [Salon.ratingInvalid, hr]
  · rw [validateErrors_mem_geo s]
    cases hg : s.location.geoPoint <;> simp [Salon.geoInvalid, hg]
  · intro e he
    unfold Salon.Validate at he
    by_cases h : s.validateErrors.isEmpty <;> simp_all

/-! ### C1 -/

/-- C1 counterexample: two searches whose hits differ only in the
engine's native `_score` (5/2 versus 7) produce identical responses, so
the per-result output cannot carry the native relevance score verbatim —
ElasticsearchClient.Search reads only `_source` and discards `_score`,
and Handler.sendSearchResponse wraps the bare salons with no score or
distance field. -/
theorem C1_counterexample_score_not_carried :
    ({ score := 5/2, source := demoDoc } : ESHit).score
        ≠ ({ score := 7, source := demoDoc } : ESHit).score
    ∧ esSearch [{ score := 5/2, source := demoDoc }] 1
        = esSearch [{ score := 7, source := demoDoc }] 1
    ∧ sendSearchResponse (esSearch [{ score := 5/2, source := demoDoc }] 1).1 1
        emptyParams "elasticsearch"
      = sendSearchResponse (esSearch [{ score := 7, source := demoDoc }] 1).1 1
        emptyParams "elasticsearch" :=
  ⟨by norm_num, rfl, rfl⟩

/-- C1 amended: the search-engine read path discards the engine's native
relevance score — its output is invariant under arbitrary rewrites of the
hit scores and depends only on each hit's `_source`, from which the Salon
is decoded — and no distance is computed anywhere on the path; the
handler envelope carries the decoded salons unchanged. -/
theorem C1_amended_es_search_ignores_score :
    (∀ (hits : List ESHit) (total : Int) (f : ESHit → ℚ),
      esSearch (hits.map fun h => { h with score := f h }) total = esSearch hits total)
    ∧ (∀ (hits : List ESHit) (total : Int),
      (esSearch hits total).1 = hits.map fun h => documentToSalon h.source)
    ∧ (∀ (salons : List Salon) (total : Int) (params : SalonSearchParams) (src : String),
      (sendSearchResponse salons total params src).data = salons) := by
  refine ⟨fun hits total f => ?_, fun _ _ => rfl, fun _ _ _ _ => rfl⟩
  simp [esSearch, List.map_map, Function.comp]

/-! ### C2 -/

/-- C2 counterexample: the envelope the handlers actually return carries
the key set {data, total, page, page_size, total_pages, source}, not the
claimed {results, total, page, page_size, total_pages, query, source} —
shown on a concrete response. -/
theorem C2_counterexample_envelope_fields :
    (sendSearchResponse [] 0 emptyParams "elasticsearch").jsonFields
        ≠ SearchResponseJsonFields
    ∧ "results" ∉ (sendSearchResponse [] 0 emptyParams "elasticsearch").jsonFields
    ∧ "query" ∉ (sendSearchResponse [] 0 emptyParams "elasticsearch").jsonFields
    ∧ "data" ∈ (sendSearchResponse [] 0 emptyParams "elasticsearch").jsonFields := by
  decide

/-- C2 amended: every envelope returned by the handlers serializes with
exactly the fields {data, total, page, page_size, total_pages, source},
its data elements being the Salons themselves (no per-result
{salon, score, distance_km, highlights} wrapper); the claimed field sets
belong to the domain types SearchResponse and SalonSearchResult, which
the handler search path never serializes. -/
theorem C2_amended_envelope_fields :
    (∀ (salons : List Salon) (total : Int) (params : SalonSearchParams) (src : String),
      (sendSearchResponse salons total params src).jsonFields
        = ["data", "total", "page", "page_size", "total_pages", "source"]
      ∧ (sendSearchResponse salons total params src).data = salons)
    ∧ SearchResponseJsonFields
        = ["results", "total", "page", "page_size", "total_pages", "query", "source"]
    ∧ SalonSearchResultJsonFields = ["salon", "score", "distance_km", "highlights"] :=
  ⟨fun _ _ _ _ => ⟨rfl, rfl⟩, rfl, rfl⟩

/-! ### C5 -/

/-- Looking a key up in a concatenation tries the left list first. -/
theorem lookup_append {α β : Type} [BEq α] (k : α) (l1 l2 : List (α × β)) :
    (l1 ++ l2).lookup k = (l1.lookup k).or (l2.lookup k) := by
  induction l1 with
  | nil => simp [List.lookup]
  | cons p t ih =>
    rw [List.cons_append, List.lookup, List.lookup]
    cases k == p.1 <;> simp [ih]

/-- C5 counterexample: for a salon with nil description, rating and
category reference, salonToDocument still writes the keys description,
rating and category_id — with null values — instead of omitting them. -/
theorem C5_counterexample_null_fields_written :
    bareSalon.description = none
    ∧ ("description", DocValue.null) ∈ salonToDocument bareSalon
    ∧ bareSalon.rating = none
    ∧ ("rating", DocValue.null) ∈ salonToDocument bareSalon
    ∧ bareSalon.categoryID = none
    ∧ ("category_id", DocValue.null) ∈ salonToDocument bareSalon := by
  decide

/-- C5 amended: only the location, category_name, services and amenities
fields are omitted from the index document when absent or empty; the
pointer-typed scalar fields (description, rating, category_id) are always
written, with a null value exactly when they are absent on the Salon. -/
theorem C5_amended_omission_policy (s : Salon) :
    ((salonToDocument s).lookup "location" ≠ none ↔ s.location.geoPoint ≠ none)
    ∧ ((salonToDocument s).lookup "category_name" ≠ none ↔ s.category ≠ none)
    ∧ ((salonToDocument s).lookup "services" ≠ none ↔ s.services ≠ [])
    ∧ ((salonToDocument s).lookup "amenities" ≠ none ↔ s.amenities ≠ [])
    ∧ ((salonToDocument s).lookup "description" = some DocValue.null ↔ s.description = none)
    ∧ ((salonToDocument s).lookup "rating" = some DocValue.null ↔ s.rating = none)
    ∧ ((salonToDocument s).lookup "category_id" = some DocValue.null ↔ s.categoryID = none) := by
  refine ⟨?_, ?_, ?_, ?_, ?_, ?_, ?_⟩
  · rcases hg : s.location.geoPoint with _ | g
    · rcases hc : s.category with _ | c <;>
        cases hsv : s.services <;>
        cases ham : s.amenities <;>
        simp [salonToDocument, hg, hc, hsv, ham, List.lookup]
    · simp [salonToDocument, hg, List.lookup]
  · rcases hc : s.category with _ | c
    · rcases hg : s.location.geoPoint with _ | g <;>
        cases hsv : s.services <;>
        cases ham : s.amenities <;>
        simp [salonToDocument, hg, hc, hsv, ham, List.lookup]
    · rcases hg : s.location.geoPoint with _ | g <;>
        simp [salonToDocument, hg, hc, List.lookup]
  · cases hsv : s.services <;>
      rcases hg : s.location.geoPoint with _ | g <;>
      rcases hc : s.category with _ | c <;>
      cases ham : s.amenities <;>
      simp [salonToDocument, hg, hc, hsv, ham, List.lookup]
  · cases ham : s.amenities <;>
      rcases hg : s.location.geoPoint with _ | g <;>
      rcases hc : s.category with _ | c <;>
      cases hsv : s.services <;>
      simp [salonToDocument, hg, hc, hsv, ham, List.lookup]
  · rcases hd : s.description with _ | d <;>
      simp [salonToDocument, hd, List.lookup, optStrVal]
  · rcases hr : s.rating with _ | r <;>
      simp [salonToDocument, hr, List.lookup, optNumVal]
  · rcases hci : s.categoryID with _ | ci <;>
      simp [salonToDocument, hci, List.lookup, optIntVal]

/-! ### C3 -/

/-- Decomposition of a guarded-singleton quantification. -/
theorem forall_imp_eq_imp {α : Type} {P : Prop} {m : α} {H : α → Prop} :
    (∀ a, P → a = m → H a) ↔ (P → H m) :=
  ⟨fun h hp => h m hp rfl, fun h a hp ha => ha ▸ h hp⟩

/-- Unfolding of the compiled relational WHERE clause: a row matches iff
it is active and satisfies each enabled filter. -/
theorem pgRowMatches_iff (tm : TextMatch) (params : SalonSearchParams) (row : SalonRow) :
    pgRowMatches tm params row ↔
      (row.isActive = true
      ∧ (params.query ≠ "" → tm params.query row)
      ∧ (params.city ≠ "" →
          ∃ city, row.city = some city ∧ strLower city = strLower params.city)
      ∧ (∀ cid ∈ params.categoryID, row.categoryID = some cid)
      ∧ (params.priceRange ≠ 0 → row.priceRange = some params.priceRange)
      ∧ (∀ m ∈ params.minRating, ∃ rt, row.rating = some rt ∧ m ≤ rt)
      ∧ (params.isVerified = some true → row.isVerified = true)
      ∧ (∀ loc ∈ params.location, ∀ rad ∈ params.radiusKm, ∃ la lo,
          row.latitude = some la ∧ row.longitude = some lo ∧
          sqlGeoDistance loc.latitude loc.longitude la lo ≤ (rad : ℝ))) := by
  obtain ⟨q, city, catID, pr, mr, iv, loc, rad, pg, ps, sb⟩ := params
  rcases catID with _ | cid <;> rcases mr with _ | m <;>
    rcases loc with _ | l <;> rcases rad with _ | r <;>
    simp [pgRowMatches, pgWhereClauses, PgClause.Holds, List.forall_mem_append,
      forall_mem_ite_singleton, Option.mem_def, and_assoc, or_imp, forall_and,
      and_imp, forall_eq, forall_imp_eq_imp, List.mem_singleton]

/-- Unfolding of the compiled Elasticsearch bool query: a document
matches iff the must part holds and each enabled filter clause holds. -/
theorem esQueryMatches_iff (mm : MultiMatchOracle) (params : SalonSearchParams) (doc : ESDoc) :
    esQueryMatches mm params doc ↔
      ((params.query ≠ "" → mm params.query doc)
      ∧ doc.lookup "is_active" = some (DocValue.bool true)
      ∧ (params.city ≠ "" → doc.lookup "city" = some (DocValue.str params.city))
      ∧ (∀ cid ∈ params.categoryID, doc.lookup "category_id" = some (DocValue.num cid))
      ∧ (params.priceRange ≠ 0 →
          doc.lookup "price_range" = some (DocValue.num params.priceRange))
      ∧ (∀ m ∈ params.minRating, ∃ q, doc.lookup "rating" = some (DocValue.num q) ∧ m ≤ q)
      ∧ (params.isVerified = some true →
          doc.lookup "is_verified" = some (DocValue.bool true))
      ∧ (∀ loc ∈ params.location, ∀ rad ∈ params.radiusKm, ∃ la lo,
          doc.lookup "location" = some (DocValue.geo la lo) ∧
          GeoPoint.DistanceTo { latitude := la, longitude := lo }
            { latitude := loc.latitude, longitude := loc.longitude } ≤ (rad : ℝ))) := by
  obtain ⟨q, city, catID, pr, mr, iv, loc, rad, pg, ps, sb⟩ := params
  rcases catID with _ | cid <;> rcases mr with _ | m <;>
    rcases loc with _ | l <;> rcases rad with _ | r <;>
    simp [esQueryMatches, esFilters, ESFilter.Holds, List.forall_mem_append,
      forall_mem_ite_singleton, Option.mem_def, and_assoc, or_imp, forall_and,
      and_imp, forall_eq, forall_imp_eq_imp, List.mem_singleton]

/-- C3 counterexample: for the stored city "Mar del Plata", the relational
compiler matches the filter value in either capitalisation, but the
search-engine compiler's term filter matches only the verbatim string: the
lower-case filter value selects the row relationally and fails to select
the document, so the two predicates are not equivalent and the
search-engine side is not case-insensitive. -/
theorem C3_counterexample_city_case_sensitive :
    strLower "mar del plata" = strLower "Mar del Plata"
    ∧ pgRowMatches tmTrue cityParamsLower rowMDP
    ∧ pgRowMatches tmTrue cityParamsTitle rowMDP
    ∧ esQueryMatches mmTrue cityParamsTitle docMDP
    ∧ ¬ esQueryMatches mmTrue cityParamsLower docMDP := by
  refine ⟨by decide, ?_, ?_, ?_, ?_⟩
  · rw [pgRowMatches_iff]
    simp [cityParamsLower, emptyParams, rowMDP, tmTrue]
    decide
  · rw [pgRowMatches_iff]
    simp [cityParamsTitle, emptyParams, rowMDP, tmTrue]
  · rw [esQueryMatches_iff]
    simp [cityParamsTitle, emptyParams, docMDP, mmTrue, List.lookup]
  · rw [esQueryMatches_iff]
    simp [cityParamsLower, emptyParams, docMDP, mmTrue, List.lookup]

/-- C3 amended: the relational city predicate is case-insensitive — two
filter values equal up to lower-casing select exactly the same rows —
while the search-engine compiler emits a term filter on the keyword
field that selects exactly the documents whose stored city equals the
filter value verbatim (case-sensitively). -/
theorem C3_amended_city_semantics (tm : TextMatch) (params : SalonSearchParams)
    (c1 c2 : String) (row : SalonRow) (doc : ESDoc)
    (h1 : c1 ≠ "") (h2 : c2 ≠ "") (hl : strLower c1 = strLower c2) :
    (pgRowMatches tm { params with city := c1 } row ↔
     pgRowMatches tm { params with city := c2 } row)
    ∧ ESFilter.term "city" (DocValue.str c1) ∈ esFilters { params with city := c1 }
    ∧ ((ESFilter.term "city" (DocValue.str c1)).Holds doc ↔
        doc.lookup "city" = some (DocValue.str c1)) := by
  refine ⟨?_, ?_, Iff.rfl⟩
  · rw [pgRowMatches_iff, pgRowMatches_iff]
    simp only [h1, h2, hl, ne_eq, not_false_iff]
  · simp [esFilters, List.mem_append, mem_ite_singleton, h1]

/-- Concrete instantiation of C3_amended_city_semantics at the filter
values "A" and "a". -/
theorem C3_amended_city_semantics_witness :
    ("A" ≠ "" ∧ "a" ≠ "" ∧ strLower "A" = strLower "a")
    ∧ ((pgRowMatches tmTrue { emptyParams with city := "A" } rowMDP ↔
        pgRowMatches tmTrue { emptyParams with city := "a" } rowMDP)
      ∧ ESFilter.term "city" (DocValue.str "A")
          ∈ esFilters { emptyParams with city := "A" }
      ∧ ((ESFilter.term "city" (DocValue.str "A")).Holds docMDP ↔
          docMDP.lookup "city" = some (DocValue.str "A"))) :=
  ⟨⟨by decide, by decide, by decide⟩,
   C3_amended_city_semantics tmTrue emptyParams "A" "a" rowMDP docMDP
     (by decide) (by decide) (by decide)⟩

/-! ### C4 -/

/-- C4 counterexample: for distance sort with no geo-center the
relational compiler falls back to rating-descending, but the
search-engine compiler appends no sort clause at all — its sort list is
empty (engine default ordering), not a rating sort. -/
theorem C4_counterexample_es_no_fallback_sort :
    pgOrderBy distNoLocParams = PgOrder.ratingDescNullsLast
    ∧ esSortList distNoLocParams = []
    ∧ ESSort.ratingDescMissingLast ∉ esSortList distNoLocParams := by
  decide

/-- C4 amended: when the sort policy is distance and no geo-center is
present, the relational compiler orders by rating descending (NULLS
LAST), while the search-engine compiler emits an empty sort list,
leaving ordering to the engine's default relevance order. -/
theorem C4_amended_distance_fallback (params : SalonSearchParams)
    (hs : params.sortBy = SortByDistance) (hl : params.location = none) :
    pgOrderBy params = PgOrder.ratingDescNullsLast ∧ esSortList params = [] := by
  constructor <;> simp +decide [pgOrderBy, esSortList, hs, hl, SortByDistance,
    SortByRating, SortByReviews, SortByNewest]

/-- Concrete instantiation of C4_amended_distance_fallback. -/
theorem C4_amended_distance_fallback_witness :
    (distNoLocParams.sortBy = SortByDistance ∧ distNoLocParams.location = none)
    ∧ (pgOrderBy distNoLocParams = PgOrder.ratingDescNullsLast
       ∧ esSortList distNoLocParams = []) :=
  ⟨⟨rfl, rfl⟩, C4_amended_distance_fallback distNoLocParams rfl rfl⟩

/-! ### C10 -/

/-- C10: GetSalonByID applies no active-only predicate — it succeeds
exactly when a row with the requested id exists, returning that row's
salon (its active flag preserved, so a deactivated salon is returned)
with its services, amenities and operating hours attached — while both
search compilers unconditionally require is_active = true, so no search
result row or document is ever inactive. -/
theorem C10_inactive_reachable_by_id_never_by_search :
    (∀ (db : Db) (id : Int),
      (GetSalonByID db id).isSome ↔ (db.salons.find? (fun r => r.id == id)).isSome)
    ∧ (∀ (db : Db) (id : Int) (row : SalonRow),
        db.salons.find? (fun r => r.id == id) = some row →
        GetSalonByID db id = some
          { row.toDomain with
            services := db.services.filter (fun sv => sv.salonID == id)
            amenities := (db.amenityLinks.filter (fun l => l.1 == id)).filterMap
              (fun l => db.amenities.find? (fun a => a.id == l.2))
            operatingHours := (db.hours.filter (fun oh => oh.salonID == id)).mergeSort
              (fun a b => a.dayOfWeek ≤ b.dayOfWeek) }
          ∧ row.toDomain.isActive = row.isActive)
    ∧ (∀ (tm : TextMatch) (params : SalonSearchParams) (row : SalonRow),
        pgRowMatches tm params row → row.isActive = true)
    ∧ (∀ (mm : MultiMatchOracle) (params : SalonSearchParams) (doc : ESDoc),
        esQueryMatches mm params doc →
        doc.lookup "is_active" = some (DocValue.bool true)) := by
  refine ⟨fun db id => ?_, fun db id row h => ?_, fun tm params row h => ?_,
    fun mm params doc h => ?_⟩
  · unfold GetSalonByID
    cases db.salons.find? (fun r => r.id == id) <;> simp
  · refine ⟨?_, rfl⟩
    simp only [GetSalonByID, h]
  · exact h PgClause.isActiveTrue (by simp [pgWhereClauses])
  · exact h.2 (ESFilter.term "is_active" (DocValue.bool true)) (by simp [esFilters])

/-- Concrete instantiation of C10 on a database whose only salon is
deactivated: the by-id fetch still returns it. -/
theorem C10_inactive_reachable_witness :
    (demoDb.salons.find? (fun r => r.id == 7) = some inactiveRow)
    ∧ (GetSalonByID demoDb 7).isSome
    ∧ inactiveRow.isActive = false :=
  ⟨by decide,
   (C10_inactive_reachable_by_id_never_by_search.1 demoDb 7).mpr (by decide),
   by decide⟩

end BeautySalons
